import Mathlib

set_option maxHeartbeats 1000000
set_option maxRecDepth 8192

/-!
Shallow embedding of the ContentEditable rich text editing classes
(src/richtext.js): the color canonicalizer, the EditableBase session
contract (command catalog, command state snapshot, change notification),
and the three host strategies EditableGecko, EditableWebkit and
EditableIE.  Host document capabilities (query and exec primitives,
selection, stylesheets) are modelled as explicit oracle structures; DOM
side effects and debug logging appear as an event trace; a raised JS
exception is an Except.error outcome.
-/

namespace RichText

/-- Node type constant from the source (ELEMENT_NODE = 1). -/
def ELEMENT_NODE : Nat := 1

/-- Node type constant from the source (TEXT_NODE = 3). -/
def TEXT_NODE : Nat := 3

/-- A raised JavaScript exception (the only kind the embedded code can
raise is a TypeError from dereferencing null or undefined). -/
inductive JsErr where
  | typeError
deriving DecidableEq, Repr

/-- A primitive JS value as returned by queryCommandValue: IE reports
colors as packed numbers, Mozilla as rgb(...) strings. -/
inductive JSPrim where
  | num : Int → JSPrim
  | str : String → JSPrim
deriving DecidableEq, Repr

/-- One hex digit character, lowercase, as produced by JS toString(16). -/
def hexDigitChar (d : Nat) : Char :=
  if d < 10 then Char.ofNat (48 + d) else Char.ofNat (87 + d)

/-- Fuel driven base 16 digit expansion (fuel first, structural). -/
def natToHexAux : Nat → Nat → List Char
  | 0, _ => []
  | fuel + 1, n =>
    if n < 16 then [hexDigitChar n]
    else natToHexAux fuel (n / 16) ++ [hexDigitChar (n % 16)]

/-- JS Number.prototype.toString(16) for a nonnegative integer: lowercase
hex digits, no padding.  Fuel n+1 always suffices since the argument
shrinks by a factor of 16 every step. -/
def natToHex (n : Nat) : String := String.mk (natToHexAux (n + 1) n)

/-- The inner hex helper of convertColor: the hex representation of one
byte, zero padded to two digits. -/
def hex (d : Nat) : String := if d < 16 then "0" ++ natToHex d else natToHex d

/-- A character matched by the JS regex class backslash-s. -/
def isJsSpace (c : Char) : Bool :=
  c = ' ' || c = '\t' || c = '\n' || c = '\r' || c = '\x0b' || c = '\x0c'

/-- A character matched by the JS regex class [0-9]. -/
def isDigitChar (c : Char) : Bool := '0' ≤ c && c ≤ '9'

/-- Greedy match of the regex piece backslash-s-star. -/
def skipWs : List Char → List Char
  | [] => []
  | c :: rest => if isJsSpace c then skipWs rest else c :: rest

/-- Greedy match of one run of decimal digits: the matched digits and the
rest of the input. -/
def takeDigits : List Char → List Char × List Char
  | [] => ([], [])
  | c :: rest =>
    if isDigitChar c then
      let p := takeDigits rest
      (c :: p.1, p.2)
    else ([], c :: rest)

/-- Attempt to match the source regex
rgb backslash-s-star ( backslash-s-star ([0-9]+) backslash-s-star ,
backslash-s-star ([0-9]+) backslash-s-star , backslash-s-star ([0-9]+)
backslash-s-star ) at the head of the character list, returning the
three captured digit groups.  Greedy digit matching is exact for this
pattern because a digit is neither whitespace nor a comma, so no
backtracking can occur. -/
def matchRgbAt (l : List Char) : Option (String × String × String) :=
  match l with
  | 'r' :: 'g' :: 'b' :: rest0 =>
    match skipWs rest0 with
    | '(' :: rest1 =>
      let p1 := takeDigits (skipWs rest1)
      if p1.1.isEmpty then none else
      match skipWs p1.2 with
      | ',' :: rest3 =>
        let p2 := takeDigits (skipWs rest3)
        if p2.1.isEmpty then none else
        match skipWs p2.2 with
        | ',' :: rest5 =>
          let p3 := takeDigits (skipWs rest5)
          if p3.1.isEmpty then none else
          match skipWs p3.2 with
          | ')' :: _ => some (String.mk p1.1, String.mk p2.1, String.mk p3.1)
          | _ => none
        | _ => none
      | _ => none
    | _ => none
  | _ => none

/-- Unanchored regex search, as performed by String.prototype.match: try
the pattern at every start position. -/
def searchRgb : List Char → Option (String × String × String)
  | [] => matchRgbAt []
  | c :: rest =>
    match matchRgbAt (c :: rest) with
    | some x => some x
    | none => searchRgb rest

/-- parseInt on a nonempty string of decimal digits (what the capture
groups of the rgb regex can produce). -/
def parseDec (s : String) : Nat :=
  s.toList.foldl (fun a c => a * 10 + (c.toNat - 48)) 0

/-- JS ToUint32: the low 32 bits of an integer as a natural number.
Lean Int uses emod semantics for % with a positive modulus, so the
result is the 32 bit two complement pattern for negative inputs too. -/
def jsToUInt32 (v : Int) : Nat := (v % 4294967296).toNat

/-- convertColor from the source.  The number branch computes
v and 0xFF, (v asr 8) and 0xFF, (v asr 16) and 0xFF with 32 bit JS
bitwise operators; on the 32 bit pattern these equal the byte
extractions below for every integer input, including negative ones,
because the sign replicating shift only affects bits above the masked
byte.  A string is matched first against the rgb prefix, then against
the hash prefix; anything else gives null (none). -/
def convertColor : JSPrim → Option String
  | .num v =>
    let p := jsToUInt32 v
    let r := p % 256
    let g := p / 256 % 256
    let b := p / 65536 % 256
    some ("#" ++ hex r ++ hex g ++ hex b)
  | .str v =>
    if v.take 3 = "rgb" then
      match searchRgb v.toList with
      | some (a, b2, c) =>
        some ("#" ++ hex (parseDec a) ++ hex (parseDec b2) ++ hex (parseDec c))
      | none => none
    else if v.take 1 = "#" then some v
    else none

/-- A snapshot entry value: a boolean from queryCommandState, a primitive
from queryCommandValue (possibly replaced by convertColor output), or
null when convertColor failed. -/
inductive StateVal where
  | b : Bool → StateVal
  | prim : JSPrim → StateVal
  | null : StateVal
deriving DecidableEq, Repr

/-- JS string coercion of a snapshot entry value, as used by the debug
log line inside getCommandState. -/
def jsStrOfStateVal : StateVal → String
  | .b true => "true"
  | .b false => "false"
  | .prim (.num n) => toString n
  | .prim (.str s) => s
  | .null => "null"

/-- JS truthiness of a snapshot entry value. -/
def truthyStateVal : StateVal → Bool
  | .b bv => bv
  | .prim (.num n) => decide (n ≠ 0)
  | .prim (.str s) => decide (s ≠ "")
  | .null => false

/-- Result of getCommandState: either the snapshot array (an associative
array keyed by command in catalog order) or the JS value false, returned
when this.doc or this.node is null. -/
inductive CmdStateResult where
  | arr : List (String × StateVal) → CmdStateResult
  | fls : CmdStateResult
deriving DecidableEq, Repr

/-- The inline style record of a DOM element; the empty string is the JS
empty (falsy) style value. -/
structure Style where
  width : String := ""
  height : String := ""
  top : String := ""
  left : String := ""
  position : String := ""
  border : String := ""
  lineHeight : String := ""
  verticalAlign : String := ""
deriving DecidableEq, Repr

/-- A DOM node, carrying exactly the node properties the source reads or
writes. -/
structure DomNode where
  nodeType : Nat
  style : Style := {}
  offsetHeight : Int := 0
  innerText : String := ""
  contentEditable : Bool := false
deriving DecidableEq, Repr

/-- The iframe element built by the Gecko strategy: its inline style,
its scrolling attribute, and the designMode of its sub document. -/
structure IframeElem where
  style : Style := {}
  scrolling : String := ""
  docDesignMode : String := ""
deriving DecidableEq, Repr

/-- An IE text range handle: its text content and the character position
of its start. -/
structure IERange where
  text : String
  start : Int := 0
deriving DecidableEq, Repr

/-- Host document capabilities consumed through this.doc: the rich
editing query and exec primitives and the rendered body height used by
the Gecko height resync.  The oracles are pure functions: the host does
not change behind the embedding during one call. -/
structure HostDoc where
  queryCommandState : String → Bool
  queryCommandValue : String → JSPrim
  execCommandResult : String → Bool
  bodyOffsetHeight : Int := 0

/-- Observable actions emitted while the embedded code runs: debug log
lines, callback invocations, host command executions, and DOM or event
wiring effects. -/
inductive Ev where
  | debug : String → Ev
  | callback : CmdStateResult → Ev
  | hostExec : String → Bool → Bool → Bool → Ev
  | focusIframe : Ev
  | createElement : String → Ev
  | replaceChildIframe : Ev
  | replaceChildNode : DomNode → Ev
  | docOpen : String → Ev
  | docWrite : String → Ev
  | docClose : Ev
  | appendChild : Ev
  | appendLink : String → Ev
  | addListener : String → Ev
  | removeListener : String → Ev
  | attachEv : String → Ev
  | detachEv : String → Ev
  | setDesignMode : String → Ev
  | setContentEditable : Bool → Ev
  | moveStart : String → Int → Ev
  | selectRange : Ev
  | setBaseAndExtent : Option Nat → Option Int → Option Nat → Option Int → Ev
deriving DecidableEq, Repr

/-- Whether an event is a change callback invocation. -/
def isCallbackEv : Ev → Bool
  | .callback _ => true
  | _ => false

/-- The JS return value of a method: an explicit boolean, or undefined
when control falls off the end of the function body. -/
inductive JsRet where
  | b : Bool → JsRet
  | undef : JsRet
deriving DecidableEq, Repr

/-- The EditableBase per instance fields shared by all strategies.  The
stateChangeCallback function is modelled by whether one is registered;
its invocations appear as callback events. -/
structure BaseState where
  doc : Option HostDoc := none
  node : Option DomNode := none
  cachedCommandArray : Option CmdStateResult := none
  hasStateChangeCallback : Bool := false

/-- The fixed command catalog of EditableBase, in source order. -/
def commands : List (String × String) :=
  [("bold", "state"), ("italic", "state"), ("underline", "state"),
   ("fontname", "value"), ("fontsize", "value"), ("forecolor", "value")]

/-- Whether one character list starts with another. -/
def isPrefixOfChars : List Char → List Char → Bool
  | [], _ => true
  | _ :: _, [] => false
  | a :: as, b :: bs => a = b && isPrefixOfChars as bs

/-- Substring search over character lists. -/
def strContainsAux (needle : List Char) : List Char → Bool
  | [] => isPrefixOfChars needle []
  | c :: rest => isPrefixOfChars needle (c :: rest) || strContainsAux needle rest

/-- command.search over the color regex, nonnegative exactly when the
command name has color as a substring. -/
def containsColor (c : String) : Bool := strContainsAux "color".toList c.toList

/-- One catalog entry of getCommandState: query by kind, then pass a
truthy value of a color command through convertColor.  In the fixed
catalog every command whose name contains color is value kind, so the
converted value is always a primitive; the fallback arm keeping other
shapes unchanged is unreachable (the JS there would raise, since
booleans have no substr method). -/
def getCommandStateEntry (d : HostDoc) (c t : String) : StateVal :=
  let v0 : StateVal :=
    if t = "state" then .b (d.queryCommandState c)
    else if t = "value" then .prim (d.queryCommandValue c)
    else .b false
  if decide (c ≠ "") && containsColor c && truthyStateVal v0 then
    match v0 with
    | .prim p =>
      match convertColor p with
      | some s => .prim (.str s)
      | none => .null
    | w => w
  else v0

/-- getCommandState from EditableBase: returns the JS value false when
this.doc or this.node is null, otherwise one entry per catalog command
in catalog order, together with the debug events it logs. -/
def getCommandState (doc : Option HostDoc) (node : Option DomNode) :
    CmdStateResult × List Ev :=
  match doc, node with
  | some d, some _ =>
    let entries := commands.map (fun ct => (ct.1, getCommandStateEntry d ct.1 ct.2))
    (.arr entries,
     entries.map (fun e =>
       Ev.debug ("getCommandState() command=" ++ e.1 ++ " state/value=" ++ jsStrOfStateVal e.2)))
  | _, _ => (.fls, [])

/-- checkCommandState from EditableBase.  The comparison loop condition
reads this.commandArray, a field never assigned anywhere in the source
(the freshly captured snapshot lives in the local variable commandArray),
so as soon as a cached snapshot with at least one entry exists the first
loop iteration raises a TypeError while indexing undefined.  A cached
value of false (stored when getCommandState had no doc or node) is falsy
and takes the no-previous-snapshot branch, as does the initial null.
Events emitted before a raised error are dropped together with the
error; no claim observes them. -/
def checkCommandState (st : BaseState) : Except JsErr (BaseState × Bool × List Ev) :=
  let ca := getCommandState st.doc st.node
  let evs0 := Ev.debug "checkCommandState()" :: ca.2
  match st.cachedCommandArray with
  | some (.arr entries) =>
    if entries.isEmpty then
      .ok (st, true, evs0)
    else
      .error .typeError
  | some .fls =>
    if st.hasStateChangeCallback then
      .ok ({ st with cachedCommandArray := some ca.1 }, true, evs0 ++ [.callback ca.1])
    else .ok (st, true, evs0)
  | none =>
    if st.hasStateChangeCallback then
      .ok ({ st with cachedCommandArray := some ca.1 }, true, evs0 ++ [.callback ca.1])
    else .ok (st, true, evs0)

/-- setStateChangeCallBack from EditableBase: registering (or clearing)
the single change callback. -/
def setStateChangeCallBack (st : BaseState) (registered : Bool) : BaseState :=
  { st with hasStateChangeCallback := registered }

/-- checkNodeType from EditableBase:
node and node.nodeType and ELEMENT_NODE == node.nodeType, plus the
diagnostic logged on failure. -/
def checkNodeType : Option DomNode → Bool × List Ev
  | some nd =>
    if decide (nd.nodeType ≠ 0) && decide (ELEMENT_NODE = nd.nodeType) then (true, [])
    else (false, [.debug "checkNodeType() : Incorrect element type"])
  | none => (false, [.debug "checkNodeType() : Incorrect element type"])

/-- EditableBase.execCommand, polymorphic over the strategy state the
way the JS prototype dispatch is: guard on this.doc, pre exec hook, host
execCommand(command, false, false), post exec hook, checkCommandState,
then return of the host result.  this.doc is read again after the pre
hook, exactly as the source does. -/
def execCommandWith {σ : Type} (getBase : σ → BaseState) (setBase : σ → BaseState → σ)
    (preHook : σ → Except JsErr (σ × List Ev)) (postHook : σ → Except JsErr (σ × List Ev))
    (st : σ) (command : String) : Except JsErr (σ × JsRet × List Ev) :=
  match (getBase st).doc with
  | none => .ok (st, .b false, [])
  | some _ =>
    match preHook st with
    | .error e => .error e
    | .ok (st1, e1) =>
      match (getBase st1).doc with
      | none => .error .typeError
      | some d =>
        let ret := d.execCommandResult command
        match postHook st1 with
        | .error e => .error e
        | .ok (st2, e3) =>
          match checkCommandState (getBase st2) with
          | .error e => .error e
          | .ok (b3, _, e4) =>
            .ok (setBase st2 b3, .b ret, e1 ++ [Ev.hostExec command false false ret] ++ e3 ++ e4)

/-- The EditableGecko per instance fields: the base fields, the iframe
editor, the deep clone snapshot kept in originalNode, whether the three
keyup, mouseup and resize handlers are attached, and whether the process
wide EditableGeckoRef slot points at this instance. -/
structure GeckoState where
  base : BaseState := {}
  iframe : Option IframeElem := none
  originalNode : Option DomNode := none
  listenersAttached : Bool := false
  activeRefSet : Bool := false

/-- Host environment of the Gecko strategy: the sub document object the
iframe exposes, the innerHTML values of the style elements of the
hosting document, and the hrefs of its stylesheets. -/
structure GeckoEnv where
  iframeDoc : HostDoc
  styleTagInnerHTMLs : List String := []
  styleSheetHrefs : List String := []

/-- The stub document text written into the iframe, up to the point
where styleText is concatenated in (braces and apostrophes escaped,
content identical to the source concatenation). -/
def geckoStubPre : String :=
  "<html><head><style type=\x27text/css\x27>\n" ++
  "body,html \x7b\n   background:transparent;\n   padding:0;\n   margin:0;\n\x7d\n" ++
  "body \x7b\n   top:0;\n   left:0;\n   right:0;\n   position:fixed;\n\x7d\n" ++
  "body,div,dl,dt,dd,ul,ol,li,h1,h2,h3,h4,h5,h6,pre,form,fieldset,input,textarea,p,blockquote,th,td \x7b\n   margin:0;\n   padding:0;\n\x7d\n" ++
  "table \x7b\n   border-collapse:collapse;\n   border-spacing:0;\n\x7d\n" ++
  "fieldset,img \x7b\n   border:0;\n\x7d\n" ++
  "address,caption,cite,code,dfn,em,strong,th,var \x7b\n   font-style:normal;\n   font-weight:normal;\n\x7d\n" ++
  "ol,ul \x7b\n   list-style:none;\n\x7d\n" ++
  "caption,th \x7b\n   text-align:left;\n\x7d\n" ++
  "h1,h2,h3,h4,h5,h6 \x7b\n   font-size:100%;\n   font-weight:normal;\n\x7d\n" ++
  "q:before,q:after \x7b\n   content:\x27\x27;\n\x7d\n" ++
  "abbr,acronym \x7b\n   border:0;\n\x7d\n"

/-- The stub document text following styleText. -/
def geckoStubPost : String := "</style></head><body><div></div></body></html>"

/-- EditableGecko.update: checkCommandState first, then resize the
iframe height to the rendered height of the sub document body.  Either
this.iframe or this.doc being null makes the height line raise. -/
def geckoUpdate (st : GeckoState) : Except JsErr (GeckoState × List Ev) :=
  match checkCommandState st.base with
  | .error e => .error e
  | .ok (b1, _, e1) =>
    match st.iframe, b1.doc with
    | some ifr, some d =>
      .ok ({ st with
             base := b1,
             iframe := some { ifr with style := { ifr.style with
               height := toString d.bodyOffsetHeight ++ "px" } } }, e1)
    | _, _ => .error .typeError

/-- EditableGecko.editableOn.  Notes on fidelity: the clone and the
originalNode snapshot are taken after the position style of the passed
node has been reset to static, exactly as in the source (the clones
happen on the lines after the position handling); and since
document.getElementsByTagName always returns a (truthy) list object, the
source reads the innerHTML of its first entry unconditionally, which
raises a TypeError when the hosting document has no style element. -/
def geckoEditableOn (env : GeckoEnv) (st : GeckoState) (node : Option DomNode) :
    Except JsErr (GeckoState × JsRet × List Ev) :=
  match node with
  | none => .ok (st, .b false, (checkNodeType none).2)
  | some nd =>
    if (checkNodeType (some nd)).1 = false then
      .ok (st, .b false, (checkNodeType (some nd)).2)
    else
      let ifr0 : IframeElem := {}
      let s1 : Style := { ifr0.style with
        width := if nd.style.width ≠ "" then nd.style.width else "100%",
        height := if nd.style.height ≠ "" then nd.style.height
                  else toString nd.offsetHeight ++ "px",
        top := if nd.style.top ≠ "" then nd.style.top else ifr0.style.top,
        left := if nd.style.left ≠ "" then nd.style.left else ifr0.style.left }
      let s2 : Style :=
        if nd.style.position ≠ "" then { s1 with position := nd.style.position } else s1
      let nd2 : DomNode :=
        if nd.style.position ≠ "" then
          { nd with style := { nd.style with position := "static" } }
        else nd
      let s3 : Style := { s2 with
                          border := "none",
                          lineHeight := "0",
                          verticalAlign := "bottom" }
      let clone := nd2
      match env.styleTagInnerHTMLs with
      | [] => .error .typeError
      | firstStyle :: _ =>
        let styleText := "\n\n" ++ firstStyle ++ "\n\n"
        let html := geckoStubPre ++ styleText ++ geckoStubPost
        let ifr1 : IframeElem := { style := s3, scrolling := "no", docDesignMode := "on" }
        let evs : List Ev :=
          [.createElement "iframe", .replaceChildIframe,
           .docOpen "text/html; charset=\"UTF-8\"", .docWrite html, .docClose,
           .appendChild] ++
          (env.styleSheetHrefs.reverse.flatMap
            (fun h => [.createElement "link", .appendLink h])) ++
          [.setDesignMode "on",
           .addListener "keyup", .addListener "mouseup", .addListener "resize"]
        let st1 : GeckoState :=
          { base := { st.base with node := some clone, doc := some env.iframeDoc },
            iframe := some ifr1, originalNode := some nd2,
            listenersAttached := true, activeRefSet := true }
        match geckoUpdate st1 with
        | .error e => .error e
        | .ok (st2, e2) => .ok (st2, .undef, evs ++ e2)

/-- EditableGecko.editableOff.  When this.iframe is null the body is
skipped and control falls off the end (undefined, no diagnostic).  On
the active path the restored geometry mirrors the source ternaries
verbatim: the condition tests the originalNode style but the true arm
takes the iframe value, so a snapshot that has an explicit style gets
the current iframe value and a snapshot that lacks one gets its own
empty string.  originalNode and the process wide reference slot are not
cleared.  Nothing is returned on either path, hence undefined. -/
def geckoEditableOff (st : GeckoState) : Except JsErr (GeckoState × JsRet × List Ev) :=
  match st.iframe with
  | none => .ok (st, .undef, [])
  | some ifr =>
    match st.base.node, st.originalNode with
    | some nd, some orig =>
      let w := if orig.style.width ≠ "" then ifr.style.width else orig.style.width
      let h := if orig.style.height ≠ "" then ifr.style.height else orig.style.height
      let restored : DomNode :=
        { nd with style := { nd.style with
                             width := w,
                             height := h,
                             position := ifr.style.position,
                             top := ifr.style.top,
                             left := ifr.style.left } }
      .ok ({ st with
             base := { st.base with node := none, doc := none },
             iframe := none, listenersAttached := false },
           .undef,
           [.removeListener "keyup", .removeListener "mouseup", .removeListener "resize",
            .setDesignMode "off", .replaceChildNode restored])
    | _, _ => .error .typeError

/-- EditableGecko.preExecCommand: focus the iframe window when one is
present. -/
def geckoPreExec (st : GeckoState) : Except JsErr (GeckoState × List Ev) :=
  .ok (st, if st.iframe.isSome then [.focusIframe] else [])

/-- EditableGecko.postExecCommand: update. -/
def geckoPostExec (st : GeckoState) : Except JsErr (GeckoState × List Ev) :=
  geckoUpdate st

/-- execCommand as dispatched on an EditableGecko instance. -/
def geckoExecCommand (st : GeckoState) (command : String) :
    Except JsErr (GeckoState × JsRet × List Ev) :=
  execCommandWith (fun s => s.base) (fun s b => { s with base := b })
    geckoPreExec geckoPostExec st command

/-- The EditableWebkit per instance fields: the base fields, the cached
selection 4 tuple (anchor and focus node references are opaque
identifiers; all four fields are JS null until a selection is cached),
whether the keypress and mouseup handlers are attached, and whether the
process wide editableWebkitRef slot points at this instance. -/
structure WebkitState where
  base : BaseState := {}
  baseNode : Option Nat := none
  baseOffset : Option Int := none
  extentNode : Option Nat := none
  extentOffset : Option Int := none
  listenersAttached : Bool := false
  activeRefSet : Bool := false

/-- Host environment of the Webkit strategy: the hosting document and
the current window selection 4 tuple. -/
structure WebkitEnv where
  doc : HostDoc
  selBaseNode : Option Nat := none
  selBaseOffset : Option Int := none
  selExtentNode : Option Nat := none
  selExtentOffset : Option Int := none

/-- EditableWebkit.editableOn: in place activation; control falls off
the end, so a successful activation returns undefined. -/
def webkitEditableOn (env : WebkitEnv) (st : WebkitState) (node : Option DomNode) :
    Except JsErr (WebkitState × JsRet × List Ev) :=
  match node with
  | none => .ok (st, .b false, (checkNodeType none).2)
  | some nd =>
    if (checkNodeType (some nd)).1 = false then
      .ok (st, .b false, (checkNodeType (some nd)).2)
    else
      .ok ({ st with
             base := { st.base with
                       node := some { nd with contentEditable := true },
                       doc := some env.doc },
             listenersAttached := true, activeRefSet := true },
           .undef,
           [.setContentEditable true, .addListener "keypress", .addListener "mouseup"])

/-- EditableWebkit.editableOff: dereferences this.node unconditionally,
so on an inactive session (node null) the very first line raises a
TypeError.  On the active path nothing is returned, hence undefined. -/
def webkitEditableOff (st : WebkitState) : Except JsErr (WebkitState × JsRet × List Ev) :=
  match st.base.node with
  | none => .error .typeError
  | some _ =>
    .ok ({ st with
           base := { st.base with node := none, doc := none },
           listenersAttached := false },
         .undef,
         [.removeListener "keypress", .removeListener "mouseup",
          .setContentEditable false])

/-- EditableWebkit.cacheSelection: copy the selection 4 tuple out of
window.getSelection(). -/
def webkitCacheSelection (env : WebkitEnv) (st : WebkitState) : WebkitState :=
  { st with
    baseNode := env.selBaseNode
    baseOffset := env.selBaseOffset
    extentNode := env.selExtentNode
    extentOffset := env.selExtentOffset }

/-- EditableWebkit.highlightSelection: rebuild a selection spanning the
cached 4 tuple via selection.setBaseAndExtent. -/
def webkitHighlightSelection (st : WebkitState) : WebkitState × List Ev :=
  (st, [.setBaseAndExtent st.baseNode st.baseOffset st.extentNode st.extentOffset])

/-- EditableWebkit.update: re-cache the selection, then check command
state. -/
def webkitUpdate (env : WebkitEnv) (st : WebkitState) :
    Except JsErr (WebkitState × List Ev) :=
  let st1 := webkitCacheSelection env st
  match checkCommandState st1.base with
  | .error e => .error e
  | .ok (b1, _, e1) => .ok ({ st1 with base := b1 }, e1)

/-- EditableWebkit.preExecCommand: highlightSelection. -/
def webkitPreExec (st : WebkitState) : Except JsErr (WebkitState × List Ev) :=
  .ok (webkitHighlightSelection st)

/-- execCommand as dispatched on an EditableWebkit instance. -/
def webkitExecCommand (env : WebkitEnv) (st : WebkitState) (command : String) :
    Except JsErr (WebkitState × JsRet × List Ev) :=
  execCommandWith (fun s => s.base) (fun s b => { s with base := b })
    webkitPreExec (webkitUpdate env) st command

/-- The EditableIE per instance fields: the base fields, the cached
range handle, the cached innerText snapshot (JS null until a selection
is cached), whether the onkeypress and onmouseup handlers are attached,
and whether the process wide editableIERef slot points at this
instance. -/
structure IEState where
  base : BaseState := {}
  cachedRange : Option IERange := none
  cachedInnerText : Option String := none
  listenersAttached : Bool := false
  activeRefSet : Bool := false

/-- Host environment of the IE strategy: the hosting document and the
range that document.selection.createRange() currently yields (none when
document.selection is absent). -/
structure IEEnv where
  doc : HostDoc
  docSelection : Option IERange := none

/-- EditableIE.editableOn: in place activation via the proprietary
attachEvent API; control falls off the end, so a successful activation
returns undefined. -/
def ieEditableOn (env : IEEnv) (st : IEState) (node : Option DomNode) :
    Except JsErr (IEState × JsRet × List Ev) :=
  match node with
  | none => .ok (st, .b false, (checkNodeType none).2)
  | some nd =>
    if (checkNodeType (some nd)).1 = false then
      .ok (st, .b false, (checkNodeType (some nd)).2)
    else
      .ok ({ st with
             base := { st.base with
                       node := some { nd with contentEditable := true },
                       doc := some env.doc },
             listenersAttached := true, activeRefSet := true },
           .undef,
           [.setContentEditable true, .attachEv "onkeypress", .attachEv "onmouseup"])

/-- EditableIE.editableOff: dereferences this.node unconditionally, so
on an inactive session (node null) the very first line raises a
TypeError.  On the active path nothing is returned, hence undefined. -/
def ieEditableOff (st : IEState) : Except JsErr (IEState × JsRet × List Ev) :=
  match st.base.node with
  | none => .error .typeError
  | some _ =>
    .ok ({ st with
           base := { st.base with node := none, doc := none },
           listenersAttached := false },
         .undef,
         [.detachEv "onkeypress", .detachEv "onmouseup", .setContentEditable false])

/-- EditableIE.cacheSelection: when document.selection exists, cache a
range created from it together with the live innerText of the edited
node (reading this.node.innerText raises when the node is null). -/
def ieCacheSelection (env : IEEnv) (st : IEState) : Except JsErr IEState :=
  match env.docSelection with
  | none => .ok st
  | some sel =>
    match st.base.doc with
    | none => .error .typeError
    | some _ =>
      match st.base.node with
      | none => .error .typeError
      | some nd =>
        .ok { st with cachedRange := some sel, cachedInnerText := some nd.innerText }

/-- JS loose inequality between the cached innerText (possibly null) and
a live string: null != string is true. -/
def jsStrNeq : Option String → String → Bool
  | none, _ => true
  | some a, b => decide (a ≠ b)

/-- EditableIE.highlightSelection: the drift compensation.  When the
cached innerText no longer equals the live innerText and a cached range
with nonnegative text length exists, the range start is moved forward by
the character length of the cached range text before the range is
re-selected; otherwise the cached range (if any) is re-selected as it
is.  The live text the host would re-derive for the moved range is not
modelled; nothing here reads the range text after the move. -/
def ieHighlightSelection (st : IEState) : Except JsErr (IEState × List Ev) :=
  match st.base.node with
  | none => .error .typeError
  | some nd =>
    match st.cachedRange with
    | some r =>
      if jsStrNeq st.cachedInnerText nd.innerText && decide (r.text.length ≥ 0) then
        .ok ({ st with cachedRange := some { r with start := r.start + (r.text.length : Int) } },
             [.moveStart "character" (r.text.length : Int), .selectRange])
      else
        .ok (st, [.selectRange])
    | none =>
      -- this.cachedRange is falsy: both guards fail, nothing happens
      .ok (st, [])

/-- EditableIE.update: re-cache the selection, then check command
state. -/
def ieUpdate (env : IEEnv) (st : IEState) : Except JsErr (IEState × List Ev) :=
  match ieCacheSelection env st with
  | .error e => .error e
  | .ok st1 =>
    match checkCommandState st1.base with
    | .error e => .error e
    | .ok (b1, _, e1) => .ok ({ st1 with base := b1 }, e1)

/-- EditableIE.preExecCommand: highlightSelection. -/
def iePreExec (st : IEState) : Except JsErr (IEState × List Ev) :=
  ieHighlightSelection st

/-- execCommand as dispatched on an EditableIE instance. -/
def ieExecCommand (env : IEEnv) (st : IEState) (command : String) :
    Except JsErr (IEState × JsRet × List Ev) :=
  execCommandWith (fun s => s.base) (fun s b => { s with base := b })
    iePreExec (ieUpdate env) st command

/-- A concrete well behaved host used by concrete evaluations: every
toggle query reports false, every value query reports the string
rgb(1, 2, 3), every command execution succeeds. -/
def sampleHost : HostDoc :=
  { queryCommandState := fun _ => false
    queryCommandValue := fun _ => .str "rgb(1, 2, 3)"
    execCommandResult := fun _ => true
    bodyOffsetHeight := 40 }

/-- A concrete element node. -/
def sampleElemNode : DomNode := { nodeType := 1 }

/-- The snapshot sampleHost produces: the forecolor value is the only
one passed through convertColor. -/
def sampleSnapEntries : List (String × StateVal) :=
  [("bold", .b false), ("italic", .b false), ("underline", .b false),
   ("fontname", .prim (.str "rgb(1, 2, 3)")), ("fontsize", .prim (.str "rgb(1, 2, 3)")),
   ("forecolor", .prim (.str "#010203"))]

/-- The debug events getCommandState logs for sampleHost. -/
def sampleSnapDebugEvs : List Ev :=
  [.debug "getCommandState() command=bold state/value=false",
   .debug "getCommandState() command=italic state/value=false",
   .debug "getCommandState() command=underline state/value=false",
   .debug "getCommandState() command=fontname state/value=rgb(1, 2, 3)",
   .debug "getCommandState() command=fontsize state/value=rgb(1, 2, 3)",
   .debug "getCommandState() command=forecolor state/value=#010203"]

/-- An active session (host context and node set) with a change callback
registered and no snapshot cached yet, at the base contract level. -/
def c1St0 : BaseState :=
  { doc := some sampleHost, node := some sampleElemNode, hasStateChangeCallback := true }

/-- C1: checkCommandState on an active session fires the callback on the
very first call (no prior snapshot) and caches the snapshot, but the
second call does not compare the fresh snapshot against the cache: the
loop reads the never assigned field this.commandArray and raises a
TypeError, contradicting the claim that a second call with no state
change fires the callback at most once and never raises. -/
theorem checkCommandState_comparison_typeError_bug :
    checkCommandState c1St0 =
      .ok ({ c1St0 with cachedCommandArray := some (.arr sampleSnapEntries) }, true,
           (Ev.debug "checkCommandState()" :: sampleSnapDebugEvs)
             ++ [.callback (.arr sampleSnapEntries)])
    ∧ checkCommandState { c1St0 with cachedCommandArray := some (.arr sampleSnapEntries) } =
        .error .typeError :=
  ⟨rfl, rfl⟩

/-- A character of the canonical lowercase hex alphabet. -/
def isLowerHexChar (c : Char) : Bool := isDigitChar c || ('a' ≤ c && c ≤ 'f')

/-- C7: convertColor maps the packed integer 0x0000FF to #ff0000, the
string rgb(255, 0, 0) to #ff0000, passes #abcdef through unchanged,
returns null (none) on not-a-color, and renders every byte as exactly
two zero padded lowercase hex digits. -/
theorem convertColor_canonical_forms :
    convertColor (.num 0x0000FF) = some "#ff0000"
    ∧ convertColor (.str "rgb(255, 0, 0)") = some "#ff0000"
    ∧ convertColor (.str "#abcdef") = some "#abcdef"
    ∧ convertColor (.str "not-a-color") = none
    ∧ (∀ d : Nat, d < 256 →
        (hex d).length = 2
        ∧ (hex d).toList.all isLowerHexChar = true
        ∧ (d < 16 → (hex d).take 1 = "0")) := by
  refine ⟨rfl, rfl, rfl, rfl, ?_⟩
  decide

/-- C7 witness: the two digit property instantiated at the byte 10. -/
theorem convertColor_canonical_forms_witness :
    (10 : Nat) < 256
    ∧ ((hex 10).length = 2
       ∧ (hex 10).toList.all isLowerHexChar = true
       ∧ ((10 : Nat) < 16 → (hex 10).take 1 = "0")) :=
  ⟨by decide, convertColor_canonical_forms.2.2.2.2 10 (by decide)⟩

/-- C10: checkCommandState updates the cached snapshot only in the
branch that also fires the callback.  With no callback registered and
nothing cached, a call returns with the state unchanged (the cache stays
null) and no callback event; with a callback registered and nothing
cached, the call fires unconditionally and caches the fresh snapshot;
and in general any call that returns normally without emitting a
callback event leaves the cached snapshot exactly as it was. -/
theorem checkCommandState_cache_mutation_invariant :
    (∀ st : BaseState, st.cachedCommandArray = none → st.hasStateChangeCallback = false →
       checkCommandState st =
         .ok (st, true, Ev.debug "checkCommandState()" :: (getCommandState st.doc st.node).2))
    ∧ (∀ st : BaseState, st.cachedCommandArray = none → st.hasStateChangeCallback = true →
       checkCommandState st =
         .ok ({ st with cachedCommandArray := some (getCommandState st.doc st.node).1 }, true,
              (Ev.debug "checkCommandState()" :: (getCommandState st.doc st.node).2)
                ++ [.callback (getCommandState st.doc st.node).1]))
    ∧ (∀ (st st' : BaseState) (r : Bool) (evs : List Ev),
         checkCommandState st = .ok (st', r, evs) → evs.filter isCallbackEv = [] →
         st'.cachedCommandArray = st.cachedCommandArray) := by
  refine ⟨?_, ?_, ?_⟩
  · intro st h1 h2
    simp [checkCommandState, h1, h2]
  · intro st h1 h2
    simp [checkCommandState, h1, h2]
  · intro st st' r evs h hf
    cases hc : st.cachedCommandArray with
    | none =>
      by_cases hcb : st.hasStateChangeCallback
      · simp [checkCommandState, hc, hcb] at h
        obtain ⟨h1, h2, h3⟩ := h
        subst h3
        simp [isCallbackEv] at hf
      · simp [checkCommandState, hc, hcb] at h
        obtain ⟨h1, h2, h3⟩ := h
        subst h1
        exact hc
    | some c =>
      cases c with
      | fls =>
        by_cases hcb : st.hasStateChangeCallback
        · simp [checkCommandState, hc, hcb] at h
          obtain ⟨h1, h2, h3⟩ := h
          subst h3
          simp [isCallbackEv] at hf
        · simp [checkCommandState, hc, hcb] at h
          obtain ⟨h1, h2, h3⟩ := h
          subst h1
          exact hc
      | arr entries =>
        by_cases he : entries.isEmpty
        · simp [checkCommandState, hc, he] at h
          obtain ⟨h1, h2, h3⟩ := h
          subst h1
          exact hc
        · simp [checkCommandState, hc, he] at h

/-- C10 witness: a fresh session with no callback registered is left
unchanged, with only the entry debug line in the trace. -/
theorem checkCommandState_cache_mutation_invariant_witness :
    checkCommandState ({} : BaseState) =
      .ok (({} : BaseState), true, [Ev.debug "checkCommandState()"]) :=
  checkCommandState_cache_mutation_invariant.1 {} rfl rfl

/-- C8: on a session with no host context (this.doc null), execCommand
returns false immediately for every strategy and every command: the
state is unchanged and the trace is empty, so neither hook nor host
primitive nor callback ran. -/
theorem execCommand_inactive_noop :
    (∀ (st : GeckoState) (command : String), st.base.doc = none →
       geckoExecCommand st command = .ok (st, .b false, []))
    ∧ (∀ (env : WebkitEnv) (st : WebkitState) (command : String), st.base.doc = none →
       webkitExecCommand env st command = .ok (st, .b false, []))
    ∧ (∀ (env : IEEnv) (st : IEState) (command : String), st.base.doc = none →
       ieExecCommand env st command = .ok (st, .b false, [])) := by
  refine ⟨?_, ?_, ?_⟩
  · intro st command h
    simp [geckoExecCommand, execCommandWith, h]
  · intro env st command h
    simp [webkitExecCommand, execCommandWith, h]
  · intro env st command h
    simp [ieExecCommand, execCommandWith, h]

/-- C8 witness: an empty (inactive) Gecko session executing bold. -/
theorem execCommand_inactive_noop_witness :
    geckoExecCommand {} "bold" = .ok (({} : GeckoState), .b false, []) :=
  execCommand_inactive_noop.1 {} "bold" rfl

/-- C9: for every strategy and every non element node (null included),
activation returns false, logs the diagnostic, and returns the state
exactly as it was: no host context, no target node and no listener
attachment is touched, and the trace shows nothing but the
diagnostic. -/
theorem activate_non_element_unchanged :
    ∀ (node : Option DomNode), (∀ nd, node = some nd → nd.nodeType ≠ ELEMENT_NODE) →
      (∀ (env : GeckoEnv) (st : GeckoState),
         geckoEditableOn env st node =
           .ok (st, .b false, [Ev.debug "checkNodeType() : Incorrect element type"]))
      ∧ (∀ (env : WebkitEnv) (st : WebkitState),
         webkitEditableOn env st node =
           .ok (st, .b false, [Ev.debug "checkNodeType() : Incorrect element type"]))
      ∧ (∀ (env : IEEnv) (st : IEState),
         ieEditableOn env st node =
           .ok (st, .b false, [Ev.debug "checkNodeType() : Incorrect element type"])) := by
  intro node h
  cases node with
  | none => exact ⟨fun env st => rfl, fun env st => rfl, fun env st => rfl⟩
  | some nd =>
    have hne : ELEMENT_NODE ≠ nd.nodeType := fun e => (h nd rfl) e.symm
    refine ⟨fun env st => ?_, fun env st => ?_, fun env st => ?_⟩
    · simp [geckoEditableOn, checkNodeType, hne]
    · simp [webkitEditableOn, checkNodeType, hne]
    · simp [ieEditableOn, checkNodeType, hne]

/-- C9 witness: activating a text node on an inactive Webkit session. -/
theorem activate_non_element_unchanged_witness :
    webkitEditableOn { doc := sampleHost } {} (some { nodeType := TEXT_NODE }) =
      .ok (({} : WebkitState), .b false,
           [Ev.debug "checkNodeType() : Incorrect element type"]) :=
  (activate_non_element_unchanged (some { nodeType := TEXT_NODE })
    (fun nd hnd => by cases hnd; decide)).2.1 { doc := sampleHost } {}

/-- C2 counterexample: deactivating an inactive Webkit style session
raises a TypeError (this.node is null when removeEventListener is
called on it), refuting the claim that deactivate on an inactive session
is a no-op returning false with a diagnostic and never an exception. -/
theorem webkit_deactivate_inactive_raises :
    webkitEditableOff ({} : WebkitState) = .error .typeError := rfl

/-- C2 amended: deactivating when inactive is a silent no-op returning
undefined for the Gecko strategy (no diagnostic, empty trace), and
raises a TypeError for the Webkit and Trident strategies; after any
successful deactivate the session is inactive again (iframe or node
cleared, return value undefined), so a second consecutive deactivate
behaves exactly the same way. -/
theorem deactivate_inactive_behavior :
    (∀ st : GeckoState, st.iframe = none → geckoEditableOff st = .ok (st, .undef, []))
    ∧ (∀ st : WebkitState, st.base.node = none → webkitEditableOff st = .error .typeError)
    ∧ (∀ st : IEState, st.base.node = none → ieEditableOff st = .error .typeError)
    ∧ (∀ (st st' : GeckoState) (r : JsRet) (evs : List Ev),
         geckoEditableOff st = .ok (st', r, evs) → st'.iframe = none ∧ r = .undef)
    ∧ (∀ (st st' : WebkitState) (r : JsRet) (evs : List Ev),
         webkitEditableOff st = .ok (st', r, evs) → st'.base.node = none ∧ r = .undef)
    ∧ (∀ (st st' : IEState) (r : JsRet) (evs : List Ev),
         ieEditableOff st = .ok (st', r, evs) → st'.base.node = none ∧ r = .undef) := by
  refine ⟨?_, ?_, ?_, ?_, ?_, ?_⟩
  · intro st h
    simp [geckoEditableOff, h]
  · intro st h
    simp [webkitEditableOff, h]
  · intro st h
    simp [ieEditableOff, h]
  · intro st st' r evs h
    cases hi : st.iframe with
    | none =>
      simp [geckoEditableOff, hi] at h
      obtain ⟨h1, h2, h3⟩ := h
      subst h1
      exact ⟨hi, h2.symm⟩
    | some ifr =>
      cases hn : st.base.node with
      | none => simp [geckoEditableOff, hi, hn] at h
      | some nd =>
        cases ho : st.originalNode with
        | none => simp [geckoEditableOff, hi, hn, ho] at h
        | some orig =>
          simp [geckoEditableOff, hi, hn, ho] at h
          obtain ⟨h1, h2, h3⟩ := h
          subst h1
          exact ⟨rfl, h2.symm⟩
  · intro st st' r evs h
    cases hn : st.base.node with
    | none => simp [webkitEditableOff, hn] at h
    | some nd =>
      simp [webkitEditableOff, hn] at h
      obtain ⟨h1, h2, h3⟩ := h
      subst h1
      exact ⟨rfl, h2.symm⟩
  · intro st st' r evs h
    cases hn : st.base.node with
    | none => simp [ieEditableOff, hn] at h
    | some nd =>
      simp [ieEditableOff, hn] at h
      obtain ⟨h1, h2, h3⟩ := h
      subst h1
      exact ⟨rfl, h2.symm⟩

/-- C2 witness: an inactive Gecko session is left untouched with an
undefined return, and an inactive IE session raises. -/
theorem deactivate_inactive_behavior_witness :
    geckoEditableOff {} = .ok (({} : GeckoState), .undef, [])
    ∧ ieEditableOff {} = .error .typeError :=
  ⟨deactivate_inactive_behavior.1 {} rfl, deactivate_inactive_behavior.2.2.1 {} rfl⟩

/-- C3 counterexample: activating a concrete element node on the Webkit
strategy succeeds but evaluates to the return value undefined, not the
boolean true the claim requires. -/
theorem webkit_activate_success_returns_undefined :
    (webkitEditableOn { doc := sampleHost } {} (some sampleElemNode)).map (fun p => p.2.1) =
      .ok JsRet.undef
    ∧ JsRet.undef ≠ JsRet.b true :=
  ⟨rfl, by decide⟩

/-- C3 amended: activate(node) returns false with a diagnostic when the
node is not element kind, for every strategy; on successful activation
of an element kind node control falls off the end of every editableOn,
so the call returns undefined (a falsy non boolean), not true.  The
Gecko success path additionally needs a style element in the hosting
document (otherwise activation raises) and is stated for a session with
no stale cached snapshot (otherwise the update call raises). -/
theorem activate_return_values :
    (∀ (env : GeckoEnv) (st : GeckoState) (node : Option DomNode),
       (∀ nd, node = some nd → nd.nodeType ≠ ELEMENT_NODE) →
       geckoEditableOn env st node =
         .ok (st, .b false, [Ev.debug "checkNodeType() : Incorrect element type"]))
    ∧ (∀ (env : WebkitEnv) (st : WebkitState) (node : Option DomNode),
       (∀ nd, node = some nd → nd.nodeType ≠ ELEMENT_NODE) →
       webkitEditableOn env st node =
         .ok (st, .b false, [Ev.debug "checkNodeType() : Incorrect element type"]))
    ∧ (∀ (env : IEEnv) (st : IEState) (node : Option DomNode),
       (∀ nd, node = some nd → nd.nodeType ≠ ELEMENT_NODE) →
       ieEditableOn env st node =
         .ok (st, .b false, [Ev.debug "checkNodeType() : Incorrect element type"]))
    ∧ (∀ (env : GeckoEnv) (st : GeckoState) (nd : DomNode),
       nd.nodeType = ELEMENT_NODE → st.base.cachedCommandArray = none →
       env.styleTagInnerHTMLs ≠ [] →
       (geckoEditableOn env st (some nd)).map (fun p => p.2.1) = .ok JsRet.undef)
    ∧ (∀ (env : WebkitEnv) (st : WebkitState) (nd : DomNode), nd.nodeType = ELEMENT_NODE →
       (webkitEditableOn env st (some nd)).map (fun p => p.2.1) = .ok JsRet.undef)
    ∧ (∀ (env : IEEnv) (st : IEState) (nd : DomNode), nd.nodeType = ELEMENT_NODE →
       (ieEditableOn env st (some nd)).map (fun p => p.2.1) = .ok JsRet.undef) := by
  refine ⟨?_, ?_, ?_, ?_, ?_, ?_⟩
  · intro env st node h
    cases node with
    | none => rfl
    | some nd =>
      have hne : ELEMENT_NODE ≠ nd.nodeType := fun e => (h nd rfl) e.symm
      simp [geckoEditableOn, checkNodeType, hne]
  · intro env st node h
    cases node with
    | none => rfl
    | some nd =>
      have hne : ELEMENT_NODE ≠ nd.nodeType := fun e => (h nd rfl) e.symm
      simp [webkitEditableOn, checkNodeType, hne]
  · intro env st node h
    cases node with
    | none => rfl
    | some nd =>
      have hne : ELEMENT_NODE ≠ nd.nodeType := fun e => (h nd rfl) e.symm
      simp [ieEditableOn, checkNodeType, hne]
  · intro env st nd h1 h2 h3
    cases hst : env.styleTagInnerHTMLs with
    | nil => exact absurd hst h3
    | cons f rest =>
      by_cases hcb : st.base.hasStateChangeCallback
      · simp [geckoEditableOn, checkNodeType, h1, ELEMENT_NODE, hst, geckoUpdate,
              checkCommandState, h2, hcb, Except.map]
      · simp [geckoEditableOn, checkNodeType, h1, ELEMENT_NODE, hst, geckoUpdate,
              checkCommandState, h2, hcb, Except.map]
  · intro env st nd h1
    simp [webkitEditableOn, checkNodeType, h1, ELEMENT_NODE, Except.map]
  · intro env st nd h1
    simp [ieEditableOn, checkNodeType, h1, ELEMENT_NODE, Except.map]

/-- C3 witness: a fresh Gecko session activating a concrete element node
inside a document with one style element returns undefined, and a text
node is rejected with false. -/
theorem activate_return_values_witness :
    (geckoEditableOn { iframeDoc := sampleHost, styleTagInnerHTMLs := ["p \x7b color:red \x7d"] }
        {} (some sampleElemNode)).map (fun p => p.2.1) = .ok JsRet.undef
    ∧ ieEditableOn { doc := sampleHost } {} (some { nodeType := TEXT_NODE }) =
        .ok (({} : IEState), .b false, [Ev.debug "checkNodeType() : Incorrect element type"]) :=
  ⟨activate_return_values.2.2.2.1
      { iframeDoc := sampleHost, styleTagInnerHTMLs := ["p \x7b color:red \x7d"] }
      {} sampleElemNode rfl rfl (by decide),
   activate_return_values.2.2.1 { doc := sampleHost } {} (some { nodeType := TEXT_NODE })
      (fun nd hnd => by cases hnd; decide)⟩

/-- An active Gecko session whose pre activation snapshot (originalNode)
has an explicit inline height of 50px and no inline width, while the
frame currently measures 100% wide and 120px tall. -/
def c4State : GeckoState :=
  { base := { doc := some sampleHost, node := some { nodeType := 1 } }
    iframe := some { style := { width := "100%", height := "120px", position := "absolute",
                                top := "1px", left := "2px" }
                     scrolling := "no", docDesignMode := "on" }
    originalNode := some { nodeType := 1, style := { height := "50px" } }
    listenersAttached := true
    activeRefSet := true }

/-- C4: the Gecko deactivation geometry restore has its ternary branches
swapped.  The snapshot has height 50px, so the claim requires the
restored node to get height 50px (and width falling back to the frame
value 100%, since the snapshot lacks width); the code instead hands the
restored node the frame height 120px and the snapshot empty width. -/
theorem gecko_deactivate_geometry_swap_bug :
    geckoEditableOff c4State =
      .ok ({ c4State with
             base := { c4State.base with node := none, doc := none }
             iframe := none
             listenersAttached := false },
           .undef,
           [.removeListener "keyup", .removeListener "mouseup", .removeListener "resize",
            .setDesignMode "off",
            .replaceChildNode { nodeType := 1, style := { width := "", height := "120px",
                                                          position := "absolute",
                                                          top := "1px", left := "2px" } }]) := rfl

/-- The Webkit host environment used by the concrete execCommand runs. -/
def sampleWebkitEnv : WebkitEnv := { doc := sampleHost }

/-- An active Webkit session with a change callback registered and no
snapshot cached yet. -/
def c5ActiveCb : WebkitState :=
  { base := { doc := some sampleHost, node := some sampleElemNode, hasStateChangeCallback := true } }

/-- The same active Webkit session without a registered callback. -/
def c5ActiveNoCb : WebkitState :=
  { base := { doc := some sampleHost, node := some sampleElemNode } }

/-- C5: on an active session with a change callback registered,
execCommand raises a TypeError instead of returning the host result:
the post hook (update) fires the callback and caches the snapshot, and
the final state re-check then hits the broken comparison loop.  Without
a registered callback nothing is ever cached, and the claimed protocol
is visible in full: pre hook, host execCommand(command, false, false),
post hook with its state check, final state re-check, and the host
boolean as the return value. -/
theorem execCommand_recheck_typeError_bug :
    webkitExecCommand sampleWebkitEnv c5ActiveCb "bold" = .error .typeError
    ∧ webkitExecCommand sampleWebkitEnv c5ActiveNoCb "bold" =
        .ok (c5ActiveNoCb, .b true,
             [Ev.setBaseAndExtent none none none none, Ev.hostExec "bold" false false true]
               ++ (Ev.debug "checkCommandState()" :: sampleSnapDebugEvs)
               ++ (Ev.debug "checkCommandState()" :: sampleSnapDebugEvs)) :=
  ⟨rfl, rfl⟩

/-- C6: the Trident drift compensation.  For an active session with a
cached range: when the cached text snapshot no longer equals the live
innerText (JS loose inequality, null counting as different), the range
start is moved forward by exactly the character length of the cached
range text and the moved range is re-selected; when the cached text
still matches, the cached range is re-selected unmodified. -/
theorem ie_highlightSelection_drift_compensation
    (st : IEState) (nd : DomNode) (r : IERange)
    (hn : st.base.node = some nd) (hr : st.cachedRange = some r) :
    (jsStrNeq st.cachedInnerText nd.innerText = true →
       ieHighlightSelection st =
         .ok ({ st with cachedRange := some { r with start := r.start + (r.text.length : Int) } },
              [.moveStart "character" (r.text.length : Int), .selectRange]))
    ∧ (jsStrNeq st.cachedInnerText nd.innerText = false →
       ieHighlightSelection st = .ok (st, [.selectRange])) := by
  constructor
  · intro hq
    simp [ieHighlightSelection, hn, hr, hq]
  · intro hq
    simp [ieHighlightSelection, hn, hr, hq]

/-- An active IE session: cached range of text hello (length 5), cached
text snapshot hello, live innerText hello world. -/
def ieSampleState : IEState :=
  { base := { doc := some sampleHost, node := some { nodeType := 1, innerText := "hello world" } }
    cachedRange := some { text := "hello", start := 0 }
    cachedInnerText := some "hello" }

/-- C6 witness: with cached text hello and live text hello world, the
range start moves forward by exactly 5 before re-selection. -/
theorem ie_highlightSelection_drift_compensation_witness :
    ieHighlightSelection ieSampleState =
      .ok ({ ieSampleState with cachedRange := some { text := "hello", start := 5 } },
           [Ev.moveStart "character" 5, Ev.selectRange]) :=
  (ie_highlightSelection_drift_compensation ieSampleState
      { nodeType := 1, innerText := "hello world" } { text := "hello", start := 0 }
      rfl rfl).1 rfl

end RichText
